import Mathlib

/-!
Verification development for the aws-nsm-interface transport layer
(src/aws_nsm_interface/__init__.py and src/aws_nsm_interface/structs.py).

The Python module is embedded shallowly:
* CBOR/Python value trees become the inductive `Value`.
* The external payload codec (the cbor2 library, declared an external
  collaborator by the design) is modelled by an executable CBOR
  encoder/decoder over the value domain the protocol uses
  (definite-length items, minimal-length arguments, UTF-8 text).
* Python exception outcomes become the `PyError` sum; fallible code
  returns `Except PyError _`.
* The kernel ioctl boundary is modelled by a `Device` oracle mapping the
  submitted request bytes to the reply bytes the kernel writes into the
  response buffer (OS-level success assumed; transport errors are out of
  scope of the claims below).
-/

namespace AwsNsm

/-- A logical value tree: the Python objects produced and consumed by the
cbor2 codec (ints, byte strings, text strings, booleans, None/null,
lists, dicts as insertion-ordered key/value pair lists). -/
inductive Value where
  | int (n : Int)
  | bytes (b : List Nat)
  | str (s : String)
  | bool (b : Bool)
  | null
  | arr (xs : List Value)
  | map (entries : List (Value × Value))
deriving Repr

/-- Python exception outcomes reachable in the transport code.
`ioctlError` models `exceptions.IoctlError` carrying its constructor
argument (the module-reported payload, possibly Python `None` = `Value.null`);
the exceptions module itself only wraps that payload. -/
inductive PyError where
  | valueError (msg : String)
  | ioctlError (payload : Value)
  | attributeError
  | typeError
  | cborDecodeError
deriving Repr

/-- UTF-8 encoding of one unicode scalar value. -/
def charUtf8 (c : Char) : List Nat :=
  let n := c.toNat
  if n < 0x80 then [n]
  else if n < 0x800 then [0xC0 + n / 64, 0x80 + n % 64]
  else if n < 0x10000 then [0xE0 + n / 4096, 0x80 + n / 64 % 64, 0x80 + n % 64]
  else [0xF0 + n / 262144, 0x80 + n / 4096 % 64, 0x80 + n / 64 % 64, 0x80 + n % 64]

/-- UTF-8 encoding of a text string. -/
def utf8Bytes (s : String) : List Nat :=
  s.data.flatMap charUtf8

/-- Is `b` a UTF-8 continuation byte? -/
def isCont (b : Nat) : Bool :=
  0x80 ≤ b && b < 0xC0

/-- Fuel-indexed UTF-8 decoder (fuel bounds the number of decoded chars;
`fuel = input length` always suffices since every char consumes a byte). -/
def utf8DecodeF : Nat → List Nat → Option (List Char)
  | _, [] => some []
  | 0, _ :: _ => none
  | fuel + 1, b :: bs =>
    if b < 0x80 then
      if Nat.isValidChar b then
        (utf8DecodeF fuel bs).map (fun cs => Char.ofNat b :: cs)
      else none
    else if b < 0xC0 then none
    else if b < 0xE0 then
      match bs with
      | c1 :: r =>
        if isCont c1 then
          let n := (b - 0xC0) * 64 + (c1 - 0x80)
          if Nat.isValidChar n then
            (utf8DecodeF fuel r).map (fun cs => Char.ofNat n :: cs)
          else none
        else none
      | _ => none
    else if b < 0xF0 then
      match bs with
      | c1 :: c2 :: r =>
        if isCont c1 && isCont c2 then
          let n := (b - 0xE0) * 4096 + (c1 - 0x80) * 64 + (c2 - 0x80)
          if Nat.isValidChar n then
            (utf8DecodeF fuel r).map (fun cs => Char.ofNat n :: cs)
          else none
        else none
      | _ => none
    else if b < 0xF8 then
      match bs with
      | c1 :: c2 :: c3 :: r =>
        if isCont c1 && isCont c2 && isCont c3 then
          let n := (b - 0xF0) * 262144 + (c1 - 0x80) * 4096 + (c2 - 0x80) * 64 + (c3 - 0x80)
          if Nat.isValidChar n then
            (utf8DecodeF fuel r).map (fun cs => Char.ofNat n :: cs)
          else none
        else none
      | _ => none
    else none

/-- UTF-8 decoding of a byte list to a string. -/
def utf8Decode (bs : List Nat) : Option String :=
  (utf8DecodeF bs.length bs).map fun cs => ⟨cs⟩

/-- Big-endian bytes of `n`, `k` bytes wide. -/
def beBytes (k : Nat) (n : Nat) : List Nat :=
  (List.range k).reverse.map fun i => n / 256 ^ i % 256

/-- CBOR head for major type `major` with argument `n`, using the
minimal-length argument encoding (as cbor2.dumps does). -/
def headBytes (major : Nat) (n : Nat) : List Nat :=
  if n < 24 then [major * 32 + n]
  else if n < 256 then [major * 32 + 24, n]
  else if n < 65536 then (major * 32 + 25) :: beBytes 2 n
  else if n < 4294967296 then (major * 32 + 26) :: beBytes 4 n
  else (major * 32 + 27) :: beBytes 8 n

mutual

/-- CBOR encoding of a value (models `cbor2.dumps` on the protocol's
value domain: definite lengths, map entries in insertion order). -/
def cborDumps : Value → List Nat
  | .int n => if 0 ≤ n then headBytes 0 n.toNat else headBytes 1 (-1 - n).toNat
  | .bytes b => headBytes 2 b.length ++ b
  | .str s => headBytes 3 (utf8Bytes s).length ++ utf8Bytes s
  | .bool false => [0xF4]
  | .bool true => [0xF5]
  | .null => [0xF6]
  | .arr xs => headBytes 4 xs.length ++ cborDumpsList xs
  | .map es => headBytes 5 es.length ++ cborDumpsPairs es

/-- Concatenated encodings of a list of array items. -/
def cborDumpsList : List Value → List Nat
  | [] => []
  | v :: vs => cborDumps v ++ cborDumpsList vs

/-- Concatenated encodings of a list of map entries. -/
def cborDumpsPairs : List (Value × Value) → List Nat
  | [] => []
  | (k, v) :: es => cborDumps k ++ cborDumps v ++ cborDumpsPairs es

end

/-- Read `k` big-endian bytes off the front of the stream. -/
def readBE (k : Nat) (bs : List Nat) : Option (Nat × List Nat) :=
  if bs.length < k then none
  else some ((bs.take k).foldl (fun acc b => acc * 256 + b) 0, bs.drop k)

/-- Decode the argument of a CBOR head with additional-information `ai`. -/
def readArg (ai : Nat) (rest : List Nat) : Option (Nat × List Nat) :=
  if ai < 24 then some (ai, rest)
  else if ai = 24 then readBE 1 rest
  else if ai = 25 then readBE 2 rest
  else if ai = 26 then readBE 4 rest
  else if ai = 27 then readBE 8 rest
  else none

mutual

/-- Fuel-indexed CBOR item decoder (models `cbor2.loads` on the
protocol's value domain); returns the decoded item and the unconsumed
suffix of the stream. -/
def cborDecodeF : Nat → List Nat → Option (Value × List Nat)
  | 0, _ => none
  | _ + 1, [] => none
  | fuel + 1, b :: rest =>
    let major := b / 32
    let ai := b % 32
    if major = 0 then
      (readArg ai rest).map fun p => (.int (Int.ofNat p.1), p.2)
    else if major = 1 then
      (readArg ai rest).map fun p => (.int (-1 - Int.ofNat p.1), p.2)
    else if major = 2 then
      match readArg ai rest with
      | some (n, r) => if r.length < n then none else some (.bytes (r.take n), r.drop n)
      | none => none
    else if major = 3 then
      match readArg ai rest with
      | some (n, r) =>
        if r.length < n then none
        else
          match utf8Decode (r.take n) with
          | some s => some (.str s, r.drop n)
          | none => none
      | none => none
    else if major = 4 then
      match readArg ai rest with
      | some (n, r) =>
        (cborDecodeItems fuel n r).map fun p => (.arr p.1, p.2)
      | none => none
    else if major = 5 then
      match readArg ai rest with
      | some (n, r) =>
        (cborDecodePairs fuel n r).map fun p => (.map p.1, p.2)
      | none => none
    else if b = 0xF4 then some (.bool false, rest)
    else if b = 0xF5 then some (.bool true, rest)
    else if b = 0xF6 then some (.null, rest)
    else none

/-- Decode `n` consecutive CBOR items (array elements). -/
def cborDecodeItems : Nat → Nat → List Nat → Option (List Value × List Nat)
  | _, 0, bs => some ([], bs)
  | 0, _ + 1, _ => none
  | fuel + 1, n + 1, bs =>
    match cborDecodeF fuel bs with
    | some (v, r) =>
      (cborDecodeItems fuel n r).map fun p => (v :: p.1, p.2)
    | none => none

/-- Decode `n` consecutive CBOR key/value pairs (map entries). -/
def cborDecodePairs : Nat → Nat → List Nat → Option (List (Value × Value) × List Nat)
  | _, 0, bs => some ([], bs)
  | 0, _ + 1, _ => none
  | fuel + 1, n + 1, bs =>
    match cborDecodeF fuel bs with
    | some (k, r) =>
      match cborDecodeF fuel r with
      | some (v, r2) =>
        (cborDecodePairs fuel n r2).map fun p => ((k, v) :: p.1, p.2)
      | none => none
    | none => none

end

/-- Models `cbor2.loads`: decode the first CBOR item of the byte
sequence, ignoring any trailing bytes; `none` is a decode error.
A fuel of twice the input length plus two always suffices, since every
decoding step either consumes a byte or closes an item. -/
def cborLoads (bs : List Nat) : Option Value :=
  (cborDecodeF (2 * bs.length + 2) bs).map Prod.fst

/-- Does the Python value `v` equal the string literal `k`?  (Python
`==` between a str and a non-str protocol value is False.) -/
def keyIs (v : Value) (k : String) : Bool :=
  match v with
  | .str s => s = k
  | _ => false

/-- Python `k in d` for a dict `d` given as its entry list: key membership. -/
def dictHasKey (entries : List (Value × Value)) (k : String) : Bool :=
  entries.any fun e => keyIs e.1 k

/-- Python `d.get(k)` for a dict: the value stored under `k` (later
duplicate assignments win, as in dict construction), or None. -/
def dictGet (entries : List (Value × Value)) (k : String) : Value :=
  match entries.reverse.find? (fun e => keyIs e.1 k) with
  | some e => e.2
  | none => .null

/-- Python `k in v` on an arbitrary decoded object: key membership for
dicts, substring test for str, element test for lists, TypeError for
bytes (str-in-bytes) and non-container values. -/
def pyContains (v : Value) (k : String) : Except PyError Bool :=
  match v with
  | .map entries => .ok (dictHasKey entries k)
  | .str s => .ok (s.data.tails.any fun t => k.data.isPrefixOf t)
  | .arr xs => .ok (xs.any fun x => keyIs x k)
  | _ => .error .typeError

/-- Python `v.get(k)`: dict lookup, or AttributeError when `v` is not a
dict (None, bytes, str, int, ... have no `get` method). -/
def pyGet (v : Value) (k : String) : Except PyError Value :=
  match v with
  | .map entries => .ok (dictGet entries k)
  | _ => .error .attributeError

/-- Python prefix slice `b[:k]` on a byte/str/list length `len`:
nonnegative `k` keeps the first `k` items, negative `k` drops the last
`-k` (clamped at zero). -/
def sliceLen (len : Nat) (k : Int) : Nat :=
  if 0 ≤ k then min k.toNat len else len - (-k).toNat

/-- Python `v[:k]` on a decoded object: prefix slice for bytes, str and
list values, TypeError otherwise (None, int, dict are unsliceable). -/
def pySliceTo (v : Value) (k : Int) : Except PyError Value :=
  match v with
  | .bytes b => .ok (.bytes (b.take (sliceLen b.length k)))
  | .str s => .ok (.str ⟨s.data.take (sliceLen s.data.length k)⟩)
  | .arr xs => .ok (.arr (xs.take (sliceLen xs.length k)))
  | _ => .error .typeError

/-! ## Constants and structs (module header and structs.py) -/

def NSM_IOCTL_MAGIC : Nat := 0x0A

def NSM_IOCTL_NUMBER : Nat := 0x00

def NSM_REQUEST_MAX_SIZE : Nat := 0x1000

def NSM_RESPONSE_MAX_SIZE : Nat := 0x3000

/-- Direction flag of ioctl-opt: data flows from kernel to user. -/
def IOC_READ : Nat := 2

/-- Direction flag of ioctl-opt: data flows from user to kernel. -/
def IOC_WRITE : Nat := 1

/-- The composite control-operation code of ioctl-opt / asm-generic
ioctl.h: direction at bit 30, size at bit 16, magic (type) at bit 8,
command number at bit 0. -/
def IOC (dir magic nr size : Nat) : Nat :=
  dir <<< 30 ||| size <<< 16 ||| magic <<< 8 ||| nr

/-- Byte size of `ctypes.c_void_p` / `ctypes.c_size_t`: the platform
pointer width in bytes (8 on the 64-bit reference platform). -/
def sizeofPointer (ptrBytes : Nat) : Nat := ptrBytes

/-- Byte size of the IoVec struct of structs.py: one `c_void_p` base
pointer plus one `c_size_t` length, no padding (equal-width fields). -/
def sizeofIoVec (ptrBytes : Nat) : Nat :=
  sizeofPointer ptrBytes + sizeofPointer ptrBytes

/-- Byte size of the NsmMessage struct of structs.py: two IoVecs. -/
def sizeofNsmMessage (ptrBytes : Nat) : Nat :=
  2 * sizeofIoVec ptrBytes

/-- The operation code computed in `_execute_ioctl`:
`IOC(IOC_READ|IOC_WRITE, NSM_IOCTL_MAGIC, NSM_IOCTL_NUMBER, ctypes.sizeof(NsmMessage))`. -/
def nsmIoctlOperation (ptrBytes : Nat) : Nat :=
  IOC (IOC_READ ||| IOC_WRITE) NSM_IOCTL_MAGIC NSM_IOCTL_NUMBER (sizeofNsmMessage ptrBytes)

/-- The IoVec struct of structs.py.  The raw `iov_base` pointer is
embedded as the byte region it points to; `iov_len` is the length field
as passed to / updated by the kernel. -/
structure IoVec where
  iov_base : List Nat
  iov_len : Nat
deriving Repr

/-- The NsmMessage struct of structs.py: request and response IoVecs. -/
structure NsmMessage where
  request : IoVec
  response : IoVec
deriving Repr

/-- The kernel/NSM module behind `fcntl.ioctl`, as an oracle: given the
request bytes it reads, it yields the reply bytes it writes at the start
of the response buffer (and reports as the used length).  OS-level call
success is assumed; an OSError path would be a transport error, outside
these claims. -/
structure Device where
  respond : List Nat → List Nat

/-- Translation of `_prepare_nsm_message_iovecs`: reject requests larger
than `NSM_REQUEST_MAX_SIZE` with `ValueError('Request too large.')`,
otherwise point the two IoVecs at the buffers with their lengths. -/
def prepareNsmMessageIovecs (requestBuffer responseBuffer : List Nat) :
    Except PyError NsmMessage :=
  if requestBuffer.length > NSM_REQUEST_MAX_SIZE then
    .error (.valueError "Request too large.")
  else
    .ok { request := ⟨requestBuffer, requestBuffer.length⟩,
          response := ⟨responseBuffer, responseBuffer.length⟩ }

/-- Translation of `_execute_ioctl` plus the kernel's effect: the device
reads `request.iov_len` bytes through the request IoVec, overwrites the
front of the response buffer with its reply and shrinks
`response.iov_len` to the number of bytes written. -/
def executeIoctl (device : Device) (msg : NsmMessage) : NsmMessage :=
  let reply := device.respond (msg.request.iov_base.take msg.request.iov_len)
  { msg with
    response := ⟨reply ++ msg.response.iov_base.drop reply.length, reply.length⟩ }

/-- Translation of `_decode_response`: copy exactly
`response.iov_len` bytes out of the response buffer (the `memmove` into
a `bytearray(iov_len)`) and run `cbor2.loads` on them. -/
def decodeResponse (msg : NsmMessage) : Except PyError Value :=
  match cborLoads (msg.response.iov_base.take msg.response.iov_len) with
  | some v => .ok v
  | none => .error .cborDecodeError

/-- Outcome of one transport round trip: the decoded response (or the
error raised on the way), together with the NsmMessage as it stood at
ioctl submission (`none` when the size gate failed first). -/
structure CallTrace where
  result : Except PyError Value
  submitted : Option NsmMessage
deriving Repr

/-- The buffer/ioctl/decode block repeated verbatim in every command of
the module: allocate a request buffer holding exactly the encoded bytes
and a zeroed `NSM_RESPONSE_MAX_SIZE` response buffer, build the IoVecs
(size gate), execute the ioctl, decode the response. -/
def transportRoundTrip (device : Device) (requestData : List Nat) : CallTrace :=
  match prepareNsmMessageIovecs requestData (List.replicate NSM_RESPONSE_MAX_SIZE 0) with
  | .error e => ⟨.error e, none⟩
  | .ok msg => ⟨decodeResponse (executeIoctl device msg), some msg⟩

/-! ## Command request payloads (the `cbor2.dumps(...)` argument of each
command function) -/

/-- Optional bytes parameter as passed to cbor2: Python `None` encodes
as null. -/
def optBytes : Option (List Nat) → Value
  | some b => .bytes b
  | none => .null

/-- Request value of `lock_pcr`: `{'LockPCR': {'index': index}}`. -/
def lockPcrRequestValue (index : Int) : Value :=
  .map [(.str "LockPCR", .map [(.str "index", .int index)])]

/-- Request value of `lock_pcrs`: `{'LockPCRs': {'range': lock_range}}`. -/
def lockPcrsRequestValue (lockRange : Int) : Value :=
  .map [(.str "LockPCRs", .map [(.str "range", .int lockRange)])]

/-- Request value of `describe_pcr`: `{'DescribePCR': {'index': index}}`. -/
def describePcrRequestValue (index : Int) : Value :=
  .map [(.str "DescribePCR", .map [(.str "index", .int index)])]

/-- Request value of `get_attestation_doc`:
`{'Attestation': {'user_data': ..., 'nonce': ..., 'public_key': ...}}`
with all three fields always present (null when the caller omitted them). -/
def attestationRequestValue (userData nonce publicKey : Option (List Nat)) : Value :=
  .map [(.str "Attestation", .map [
    (.str "user_data", optBytes userData),
    (.str "nonce", optBytes nonce),
    (.str "public_key", optBytes publicKey)])]

/-- Request value of `extend_pcr`: `{'ExtendPCR': {'index': index, 'data': data}}`. -/
def extendPcrRequestValue (index : Int) (data : List Nat) : Value :=
  .map [(.str "ExtendPCR", .map [(.str "index", .int index), (.str "data", .bytes data)])]

/-- Request value of `describe_nsm`: the bare tag string. -/
def describeNsmRequestValue : Value := .str "DescribeNSM"

/-- Request value of `get_random`: the bare tag string (note: it does
not mention the requested length). -/
def getRandomRequestValue : Value := .str "GetRandom"

/-! ## Command functions -/

/-- Response classification tail shared by `lock_pcr` and `lock_pcrs`:
`if isinstance(decoded_response, dict) and 'Error' in decoded_response:`
`raise IoctlError(decoded_response.get('Error'))` and otherwise
`return True`. -/
def classifyLock (decodedResponse : Value) : Except PyError Bool :=
  match decodedResponse with
  | .map entries =>
    if dictHasKey entries "Error" then .error (.ioctlError (dictGet entries "Error"))
    else .ok true
  | _ => .ok true

/-- Response classification tail shared by `describe_pcr`,
`get_attestation_doc`, `extend_pcr` and `describe_nsm`:
`if nsm_key not in decoded_response:`
`raise IoctlError(decoded_response.get('Error'))` and otherwise
`return decoded_response.get(nsm_key)`. -/
def classifyTagged (nsmKey : String) (decodedResponse : Value) : Except PyError Value :=
  match pyContains decodedResponse nsmKey with
  | .error e => .error e
  | .ok mem =>
    if !mem then
      match pyGet decodedResponse "Error" with
      | .error e => .error e
      | .ok errVal => .error (.ioctlError errVal)
    else
      pyGet decodedResponse nsmKey

/-- Response tail of `get_random`, in source order:
`random_bytes = decoded_response.get(nsm_key).get('random')`, then the
`nsm_key not in decoded_response` error check, then
`return random_bytes[:length]`. -/
def classifyGetRandom (length : Int) (decodedResponse : Value) : Except PyError Value :=
  match pyGet decodedResponse "GetRandom" with
  | .error e => .error e
  | .ok inner =>
    match pyGet inner "random" with
    | .error e => .error e
    | .ok randomBytes =>
      match pyContains decodedResponse "GetRandom" with
      | .error e => .error e
      | .ok mem =>
        if !mem then
          match pyGet decodedResponse "Error" with
          | .error e => .error e
          | .ok errVal => .error (.ioctlError errVal)
        else
          pySliceTo randomBytes length

/-- Translation of `lock_pcr`. -/
def lock_pcr (device : Device) (index : Int) : Except PyError Bool :=
  match (transportRoundTrip device (cborDumps (lockPcrRequestValue index))).result with
  | .error e => .error e
  | .ok decodedResponse => classifyLock decodedResponse

/-- Translation of `lock_pcrs`. -/
def lock_pcrs (device : Device) (lockRange : Int) : Except PyError Bool :=
  match (transportRoundTrip device (cborDumps (lockPcrsRequestValue lockRange))).result with
  | .error e => .error e
  | .ok decodedResponse => classifyLock decodedResponse

/-- Translation of `describe_pcr`. -/
def describe_pcr (device : Device) (index : Int) : Except PyError Value :=
  match (transportRoundTrip device (cborDumps (describePcrRequestValue index))).result with
  | .error e => .error e
  | .ok decodedResponse => classifyTagged "DescribePCR" decodedResponse

/-- Translation of `get_attestation_doc`. -/
def get_attestation_doc (device : Device)
    (userData : Option (List Nat) := none) (nonce : Option (List Nat) := none)
    (publicKey : Option (List Nat) := none) : Except PyError Value :=
  match (transportRoundTrip device
      (cborDumps (attestationRequestValue userData nonce publicKey))).result with
  | .error e => .error e
  | .ok decodedResponse => classifyTagged "Attestation" decodedResponse

/-- Translation of `extend_pcr`. -/
def extend_pcr (device : Device) (index : Int) (data : List Nat) : Except PyError Value :=
  match (transportRoundTrip device (cborDumps (extendPcrRequestValue index data))).result with
  | .error e => .error e
  | .ok decodedResponse => classifyTagged "ExtendPCR" decodedResponse

/-- Translation of `describe_nsm`. -/
def describe_nsm (device : Device) : Except PyError Value :=
  match (transportRoundTrip device (cborDumps describeNsmRequestValue)).result with
  | .error e => .error e
  | .ok decodedResponse => classifyTagged "DescribeNSM" decodedResponse

/-- Translation of `get_random`: length validation first, then the bare
`'GetRandom'` request, then the round trip, then the response tail. -/
def get_random (device : Device) (length : Int := 32) : Except PyError Value :=
  if length < 1 ∨ length > 256 then
    .error (.valueError "GetRandom supports length between 1 and 256 inclusive.")
  else
    match (transportRoundTrip device (cborDumps getRandomRequestValue)).result with
    | .error e => .error e
    | .ok decodedResponse => classifyGetRandom length decodedResponse

/-- Calling `get_random` without a length argument (the Python default
parameter `length: int = 32`). -/
def get_random_default_call (device : Device) : Except PyError Value :=
  get_random device

/-- The NsmMessage `get_random` hands to the ioctl (none when
validation fails before the call). -/
def getRandomSubmitted (device : Device) (length : Int := 32) : Option NsmMessage :=
  if length < 1 ∨ length > 256 then none
  else (transportRoundTrip device (cborDumps getRandomRequestValue)).submitted

/-! ## Command summary type and the spec-side encoding table -/

/-- The logical commands the module exposes, with their parameters. -/
inductive Command where
  | lockPCR (index : Int)
  | lockPCRs (lockRange : Int)
  | describePCR (index : Int)
  | attestation (userData nonce publicKey : Option (List Nat))
  | extendPCR (index : Int) (data : List Nat)
  | describeNSM
  | getRandom

/-- The request value each command function of the module passes to
`cbor2.dumps` (collected from the per-command request value
definitions above). -/
def requestValue : Command → Value
  | .lockPCR index => lockPcrRequestValue index
  | .lockPCRs lockRange => lockPcrsRequestValue lockRange
  | .describePCR index => describePcrRequestValue index
  | .attestation u n p => attestationRequestValue u n p
  | .extendPCR index data => extendPcrRequestValue index data
  | .describeNSM => describeNsmRequestValue
  | .getRandom => getRandomRequestValue

/-- Spec-side rendering of a `bytes|null` table field. -/
def specOptBytes : Option (List Nat) → Value
  | some b => .bytes b
  | none => .null

/-- Spec-side definition, written from the interoperability table of
spec section 6: commands with parameters encode a single-key mapping
from the command tag to its parameter record; DescribeNSM and GetRandom
encode the bare tag string; Attestation always carries its three
optional fields, null when absent.  Compared with `requestValue` for
the refinement claim. -/
def specRequestValue : Command → Value
  | .lockPCR index => .map [(.str "LockPCR", .map [(.str "index", .int index)])]
  | .lockPCRs r => .map [(.str "LockPCRs", .map [(.str "range", .int r)])]
  | .describePCR index => .map [(.str "DescribePCR", .map [(.str "index", .int index)])]
  | .attestation u n p => .map [(.str "Attestation", .map [
      (.str "user_data", specOptBytes u),
      (.str "nonce", specOptBytes n),
      (.str "public_key", specOptBytes p)])]
  | .extendPCR index data =>
      .map [(.str "ExtendPCR", .map [(.str "index", .int index), (.str "data", .bytes data)])]
  | .describeNSM => .str "DescribeNSM"
  | .getRandom => .str "GetRandom"

/-! ## Statement helpers and concrete devices for witnesses -/

/-- Is the decoded response a mapping containing the tag `"Error"`? -/
def isErrorMapping (d : Value) : Bool :=
  match d with
  | .map entries => dictHasKey entries "Error"
  | _ => false

/-- The value stored under `"Error"` in a decoded error mapping. -/
def errorValueOf (d : Value) : Value :=
  match d with
  | .map entries => dictGet entries "Error"
  | _ => .null

/-- A device whose replies are irrelevant to the property at hand. -/
def nullDevice : Device := ⟨fun _ => []⟩

/-- A device that reports a driver error for every request. -/
def errorDevice : Device :=
  ⟨fun _ => cborDumps (.map [(.str "Error", .str "InvalidOperation")])⟩

/-- A device acknowledging a LockPCR request with `{'LockPCR': {}}`. -/
def lockOkDevice : Device :=
  ⟨fun _ => cborDumps (.map [(.str "LockPCR", .map [])])⟩

/-- A device rejecting a LockPCR request with `{'Error': 'InvalidIndex'}`. -/
def lockErrDevice : Device :=
  ⟨fun _ => cborDumps (.map [(.str "Error", .str "InvalidIndex")])⟩

/-- A device answering DescribePCR with
`{'DescribePCR': {'lock': False, 'data': b'\x00' * 32}}`. -/
def describePcrOkDevice : Device :=
  ⟨fun _ => cborDumps (.map [(.str "DescribePCR", .map [
      (.str "lock", .bool false),
      (.str "data", .bytes (List.replicate 32 0))])])⟩

/-- A device answering GetRandom with three random bytes. -/
def randomDevice3 : Device :=
  ⟨fun _ => cborDumps (.map [(.str "GetRandom", .map [(.str "random", .bytes [7, 8, 9])])])⟩

/-- A device answering GetRandom with a single random byte. -/
def randomDevice1 : Device :=
  ⟨fun _ => cborDumps (.map [(.str "GetRandom", .map [(.str "random", .bytes [7])])])⟩

/-- The NsmMessage submitted for a one-byte request payload. -/
def msgOne : NsmMessage :=
  ⟨⟨[1], 1⟩, ⟨List.replicate NSM_RESPONSE_MAX_SIZE 0, NSM_RESPONSE_MAX_SIZE⟩⟩

/-! ## Shared lemmas -/

/-- Taking `min n (length l)` elements is the same as taking `n`. -/
theorem take_min_length {α : Type} (n : Nat) (l : List α) :
    l.take (min n l.length) = l.take n := by
  rcases Nat.le_total n l.length with h | h
  · rw [Nat.min_eq_left h]
  · rw [Nat.min_eq_right h, List.take_length, List.take_of_length_le h]

/-- If a dict lookup produced a mapping, the key is present. -/
theorem dictHasKey_of_dictGet_map (entries : List (Value × Value)) (k : String)
    (l : List (Value × Value)) (h : dictGet entries k = .map l) :
    dictHasKey entries k = true := by
  unfold dictGet at h
  cases hf : entries.reverse.find? (fun e => keyIs e.1 k) with
  | none => rw [hf] at h; exact absurd h (by simp)
  | some e =>
    have hm : e ∈ entries.reverse := List.mem_of_find?_eq_some hf
    have hk := List.find?_some hf
    unfold dictHasKey
    rw [List.any_eq_true]
    exact ⟨e, List.mem_reverse.mp hm, hk⟩

/-! ## Claims -/

/-- Claim C1 (code bug): driver-error classification.  The six commands
other than `get_random` raise the driver error `IoctlError` carrying the
value stored under `"Error"` verbatim, but `get_random` evaluates
`decoded_response.get('GetRandom').get('random')` before its error
check, so on an `{'Error': ...}` response it raises `AttributeError`
(`None` has no `get`) and its `IoctlError` line is unreachable. -/
theorem error_response_classification_divergence :
    get_random errorDevice 32 = .error .attributeError
    ∧ get_random_default_call errorDevice = .error .attributeError
    ∧ lock_pcr errorDevice 4 = .error (.ioctlError (.str "InvalidOperation"))
    ∧ lock_pcrs errorDevice 4 = .error (.ioctlError (.str "InvalidOperation"))
    ∧ describe_pcr errorDevice 0 = .error (.ioctlError (.str "InvalidOperation"))
    ∧ get_attestation_doc errorDevice = .error (.ioctlError (.str "InvalidOperation"))
    ∧ extend_pcr errorDevice 0 [0] = .error (.ioctlError (.str "InvalidOperation"))
    ∧ describe_nsm errorDevice = .error (.ioctlError (.str "InvalidOperation")) :=
  ⟨rfl, rfl, rfl, rfl, rfl, rfl, rfl, rfl⟩

/-- Claim C3: an encoded request larger than `NSM_REQUEST_MAX_SIZE`
(4096) bytes makes Control Message assembly fail with
`ValueError('Request too large.')` and the ioctl is never issued, for
every device; payloads of at most 4096 bytes pass the gate and reach
submission. -/
theorem request_size_gate (device : Device) (requestData : List Nat) :
    (requestData.length > NSM_REQUEST_MAX_SIZE →
      transportRoundTrip device requestData =
        ⟨.error (.valueError "Request too large."), none⟩)
    ∧ (requestData.length ≤ NSM_REQUEST_MAX_SIZE →
      (transportRoundTrip device requestData).submitted.isSome = true) := by
  refine ⟨fun h => ?_, fun h => ?_⟩
  · unfold transportRoundTrip prepareNsmMessageIovecs
    rw [if_pos h]
  · unfold transportRoundTrip prepareNsmMessageIovecs
    rw [if_neg (Nat.not_lt.mpr h)]
    rfl

/-- Witness for C3: a 4097-byte payload is rejected before submission,
a 4096-byte payload is submitted. -/
theorem request_size_gate_witness :
    (transportRoundTrip nullDevice (List.replicate 4097 0)).submitted = none
    ∧ (transportRoundTrip nullDevice (List.replicate 4096 0)).submitted.isSome = true := by
  constructor
  · rw [(request_size_gate nullDevice (List.replicate 4097 0)).1
      (by simp only [List.length_replicate]; norm_num [NSM_REQUEST_MAX_SIZE])]
  · exact (request_size_gate nullDevice (List.replicate 4096 0)).2
      (by simp only [List.length_replicate]; norm_num [NSM_REQUEST_MAX_SIZE])

/-- Claim C4: the control-operation code is derived algorithmically as
`IOC(read and write, 0x0A, 0x00, sizeof(NsmMessage))`; on the 64-bit
reference layout the struct is 32 bytes and the code is 3223325184, and
the code depends on the platform only through the struct size. -/
theorem nsm_ioctl_operation_derivation :
    nsmIoctlOperation 8 = 3223325184
    ∧ sizeofNsmMessage 8 = 32
    ∧ (∀ w, nsmIoctlOperation w =
        IOC (IOC_READ ||| IOC_WRITE) NSM_IOCTL_MAGIC NSM_IOCTL_NUMBER (sizeofNsmMessage w))
    ∧ (∀ w₁ w₂, sizeofNsmMessage w₁ = sizeofNsmMessage w₂ →
        nsmIoctlOperation w₁ = nsmIoctlOperation w₂) := by
  refine ⟨by decide, by decide, fun w => rfl, fun w₁ w₂ h => ?_⟩
  unfold nsmIoctlOperation
  rw [h]

/-- Witness for C4: determinism of the derived code at the reference
struct size. -/
theorem nsm_ioctl_operation_derivation_witness :
    nsmIoctlOperation 8 = nsmIoctlOperation 8 :=
  nsm_ioctl_operation_derivation.2.2.2 8 8 rfl

/-- Claim C5: response decoding depends only on the kernel-reported used
length and the first that-many bytes of the response buffer (trailing
capacity bytes are never passed to the codec), and after the ioctl the
reported length is exactly the number of bytes the device wrote. -/
theorem decode_uses_reported_length :
    (∀ (req₁ req₂ resp₁ resp₂ : IoVec),
      resp₁.iov_len = resp₂.iov_len →
      resp₁.iov_base.take resp₁.iov_len = resp₂.iov_base.take resp₂.iov_len →
      decodeResponse ⟨req₁, resp₁⟩ = decodeResponse ⟨req₂, resp₂⟩)
    ∧ (∀ (device : Device) (msg : NsmMessage),
      (executeIoctl device msg).response.iov_len =
        (device.respond (msg.request.iov_base.take msg.request.iov_len)).length) := by
  refine ⟨fun req₁ req₂ resp₁ resp₂ hlen hbytes => ?_, fun device msg => rfl⟩
  simp only [decodeResponse, hbytes]

/-- Witness for C5: two response buffers differing only beyond the
reported length decode identically. -/
theorem decode_uses_reported_length_witness :
    decodeResponse ⟨⟨[], 0⟩, ⟨[1, 99], 1⟩⟩ = decodeResponse ⟨⟨[], 0⟩, ⟨[1, 55], 1⟩⟩ :=
  decode_uses_reported_length.1 ⟨[], 0⟩ ⟨[], 0⟩ ⟨[1, 99], 1⟩ ⟨[1, 55], 1⟩ rfl rfl

/-- On a mapping response, the shared tagged-command tail returns the
value under the expected tag when present and raises `IoctlError` with
the value under `"Error"` (None when absent) otherwise. -/
theorem classifyTagged_map (tag : String) (entries : List (Value × Value)) :
    classifyTagged tag (.map entries) =
      if dictHasKey entries tag then .ok (dictGet entries tag)
      else .error (.ioctlError (dictGet entries "Error")) := by
  cases h : dictHasKey entries tag <;>
    simp [classifyTagged, pyContains, pyGet, h]

/-- Claim C6: for the four tag-returning commands, a decoded mapping
response lacking the command's tag raises `IoctlError` (with the value
under `"Error"`, None when absent) even without an `"Error"` tag, and a
response carrying the tag returns the stored value unchanged. -/
theorem tagged_commands_classification :
    (∀ (device : Device) (index : Int) (entries : List (Value × Value)),
      (transportRoundTrip device (cborDumps (describePcrRequestValue index))).result
        = .ok (.map entries) →
      describe_pcr device index =
        if dictHasKey entries "DescribePCR" then .ok (dictGet entries "DescribePCR")
        else .error (.ioctlError (dictGet entries "Error")))
    ∧ (∀ (device : Device) (u n p : Option (List Nat)) (entries : List (Value × Value)),
      (transportRoundTrip device (cborDumps (attestationRequestValue u n p))).result
        = .ok (.map entries) →
      get_attestation_doc device u n p =
        if dictHasKey entries "Attestation" then .ok (dictGet entries "Attestation")
        else .error (.ioctlError (dictGet entries "Error")))
    ∧ (∀ (device : Device) (index : Int) (data : List Nat) (entries : List (Value × Value)),
      (transportRoundTrip device (cborDumps (extendPcrRequestValue index data))).result
        = .ok (.map entries) →
      extend_pcr device index data =
        if dictHasKey entries "ExtendPCR" then .ok (dictGet entries "ExtendPCR")
        else .error (.ioctlError (dictGet entries "Error")))
    ∧ (∀ (device : Device) (entries : List (Value × Value)),
      (transportRoundTrip device (cborDumps describeNsmRequestValue)).result
        = .ok (.map entries) →
      describe_nsm device =
        if dictHasKey entries "DescribeNSM" then .ok (dictGet entries "DescribeNSM")
        else .error (.ioctlError (dictGet entries "Error"))) := by
  refine ⟨fun device index entries h => ?_, fun device u n p entries h => ?_,
    fun device index data entries h => ?_, fun device entries h => ?_⟩ <;>
    simp only [describe_pcr, get_attestation_doc, extend_pcr, describe_nsm, h,
      classifyTagged_map]

/-- Witness for C6: the spec's end-to-end scenario; `describe_pcr` with
response `{'DescribePCR': {'lock': False, 'data': b'\x00'*32}}` returns
the inner mapping unchanged. -/
theorem tagged_commands_classification_witness :
    describe_pcr describePcrOkDevice 0 =
      .ok (.map [(.str "lock", .bool false), (.str "data", .bytes (List.replicate 32 0))]) :=
  tagged_commands_classification.1 describePcrOkDevice 0
    [(.str "DescribePCR", .map [(.str "lock", .bool false),
      (.str "data", .bytes (List.replicate 32 0))])] rfl

/-- Claim C7: for `lock_pcr` and `lock_pcrs`, every decoded response
that is not a mapping containing `"Error"` yields `True` (no positive
tag required, no other shape rejected), and a mapping containing
`"Error"` raises `IoctlError` carrying the stored error value. -/
theorem lock_commands_classification :
    (∀ (device : Device) (index : Int) (d : Value),
      (transportRoundTrip device (cborDumps (lockPcrRequestValue index))).result = .ok d →
      (isErrorMapping d = false → lock_pcr device index = .ok true)
      ∧ (isErrorMapping d = true →
          lock_pcr device index = .error (.ioctlError (errorValueOf d))))
    ∧ (∀ (device : Device) (lockRange : Int) (d : Value),
      (transportRoundTrip device (cborDumps (lockPcrsRequestValue lockRange))).result
        = .ok d →
      (isErrorMapping d = false → lock_pcrs device lockRange = .ok true)
      ∧ (isErrorMapping d = true →
          lock_pcrs device lockRange = .error (.ioctlError (errorValueOf d)))) := by
  constructor <;>
  · intro device param d h
    refine ⟨fun he => ?_, fun he => ?_⟩ <;>
      simp only [lock_pcr, lock_pcrs, h] <;>
      cases d <;>
      simp_all [classifyLock, isErrorMapping, errorValueOf]

/-- Witness for C7: the spec's end-to-end scenario; a `{'LockPCR': {}}`
response yields success, an `{'Error': 'InvalidIndex'}` response raises
the driver error carrying `'InvalidIndex'`. -/
theorem lock_commands_classification_witness :
    lock_pcr lockOkDevice 4 = .ok true
    ∧ lock_pcr lockErrDevice 4 = .error (.ioctlError (.str "InvalidIndex")) :=
  ⟨(lock_commands_classification.1 lockOkDevice 4
      (.map [(.str "LockPCR", .map [])]) rfl).1 rfl,
   (lock_commands_classification.1 lockErrDevice 4
      (.map [(.str "Error", .str "InvalidIndex")]) rfl).2 rfl⟩

/-- Claim C8: every command's encoded request value matches the
interoperability table of spec section 6 (single-key tag to parameter
record mappings; bare tag strings for DescribeNSM and GetRandom; the
three optional Attestation fields always present, null when omitted). -/
theorem request_encoding_matches_spec_table (c : Command) :
    requestValue c = specRequestValue c := by
  cases c <;> rfl

/-- Claim C9: every NsmMessage that reaches the ioctl carries a request
descriptor whose length (and contents) is exactly the encoded payload,
with no padding or terminator, and a response descriptor whose length is
the full fixed `NSM_RESPONSE_MAX_SIZE` capacity, for every command. -/
theorem submitted_message_iovec_lengths (device : Device) (requestData : List Nat)
    (msg : NsmMessage)
    (h : (transportRoundTrip device requestData).submitted = some msg) :
    msg.request.iov_len = requestData.length
    ∧ msg.response.iov_len = NSM_RESPONSE_MAX_SIZE
    ∧ msg.request.iov_base = requestData := by
  unfold transportRoundTrip prepareNsmMessageIovecs at h
  by_cases hlen : requestData.length > NSM_REQUEST_MAX_SIZE
  · rw [if_pos hlen] at h
    exact absurd h (by simp)
  · rw [if_neg hlen] at h
    simp only [Option.some.injEq] at h
    subst h
    exact ⟨rfl, by simp, rfl⟩

/-- Witness for C9: the message submitted for a one-byte payload. -/
theorem submitted_message_iovec_lengths_witness :
    msgOne.request.iov_len = [1].length
    ∧ msgOne.response.iov_len = NSM_RESPONSE_MAX_SIZE
    ∧ msgOne.request.iov_base = [1] :=
  submitted_message_iovec_lengths nullDevice [1] msgOne (by
    unfold transportRoundTrip prepareNsmMessageIovecs
    rw [if_neg (by norm_num [NSM_REQUEST_MAX_SIZE])]
    simp [msgOne, List.length_replicate])

/-- Counterexample for C2: the claim that `get_random` returns exactly
`L` bytes for every valid `L` is false: a device whose response carries
a single random byte makes `get_random` with `L = 2` return one byte. -/
theorem get_random_exact_length_counterexample :
    ¬ (∀ (device : Device) (L : Int) (bs : List Nat),
        1 ≤ L → L ≤ 256 → get_random device L = .ok (.bytes bs) →
        bs.length = L.toNat) := by
  intro hclaim
  have h := hclaim randomDevice1 2 [7] (by norm_num) (by norm_num) rfl
  simp only [List.length_cons, List.length_nil] at h
  omega

/-- Claim C2 amended: for valid `L`, `get_random` returns the module's
random byte string truncated to `L` — hence exactly `L` bytes whenever
the module supplies at least `L` — and an out-of-range `L` raises
`ValueError` before any encoding or submission. -/
theorem get_random_truncation (device : Device) (L : Int) :
    (1 ≤ L → L ≤ 256 →
      ∀ (d inner : Value) (bs : List Nat),
        (transportRoundTrip device (cborDumps getRandomRequestValue)).result = .ok d →
        pyGet d "GetRandom" = .ok inner →
        pyGet inner "random" = .ok (.bytes bs) →
        get_random device L = .ok (.bytes (bs.take L.toNat))
        ∧ (L.toNat ≤ bs.length → (bs.take L.toNat).length = L.toNat))
    ∧ (L < 1 ∨ L > 256 →
      get_random device L =
        .error (.valueError "GetRandom supports length between 1 and 256 inclusive.")
      ∧ getRandomSubmitted device L = none) := by
  constructor
  · intro hL1 hL2 d inner bs hres hget1 hget2
    have hnb : ¬(L < 1 ∨ L > 256) := by omega
    have hd : ∃ entriesD, d = .map entriesD ∧ dictGet entriesD "GetRandom" = inner := by
      cases d <;> simp_all [pyGet]
    have hi : ∃ entriesI, inner = .map entriesI ∧ dictGet entriesI "random" = .bytes bs := by
      cases inner <;> simp_all [pyGet]
    obtain ⟨entriesD, rfl, hinner⟩ := hd
    obtain ⟨entriesI, hIeq, hbs⟩ := hi
    subst hIeq
    have hkey : dictHasKey entriesD "GetRandom" = true :=
      dictHasKey_of_dictGet_map entriesD "GetRandom" entriesI hinner
    constructor
    · simp only [get_random, if_neg hnb, hres]
      have hslice : sliceLen bs.length L = min L.toNat bs.length := by
        unfold sliceLen
        rw [if_pos (by omega)]
      simp [classifyGetRandom, pyGet, pyContains, hinner, hbs, hkey, pySliceTo,
        hslice, take_min_length]
    · intro hle
      rw [List.length_take]
      omega
  · intro h
    constructor
    · simp only [get_random, if_pos h]
    · simp only [getRandomSubmitted, if_pos h]

/-- Witness for C2 amended: with three module bytes and `L = 2`,
`get_random` returns the two-byte truncation. -/
theorem get_random_truncation_witness :
    get_random randomDevice3 2 = .ok (.bytes [7, 8])
    ∧ ((2 : Int).toNat ≤ ([7, 8, 9] : List Nat).length →
        (([7, 8, 9] : List Nat).take (2 : Int).toNat).length = (2 : Int).toNat) :=
  (get_random_truncation randomDevice3 2).1 (by norm_num) (by norm_num)
    (.map [(.str "GetRandom", .map [(.str "random", .bytes [7, 8, 9])])])
    (.map [(.str "random", .bytes [7, 8, 9])]) [7, 8, 9] rfl rfl rfl

/-- The length-independent part of the `get_random` response tail:
everything up to but excluding the final `random_bytes[:length]`
truncation. -/
def preGetRandom (decodedResponse : Value) : Except PyError Value :=
  match pyGet decodedResponse "GetRandom" with
  | .error e => .error e
  | .ok inner =>
    match pyGet inner "random" with
    | .error e => .error e
    | .ok randomBytes =>
      match pyContains decodedResponse "GetRandom" with
      | .error e => .error e
      | .ok mem =>
        if !mem then
          match pyGet decodedResponse "Error" with
          | .error e => .error e
          | .ok errVal => .error (.ioctlError errVal)
        else
          .ok randomBytes

/-- The requested length enters the response tail only through the
final slice. -/
theorem classifyGetRandom_eq_pre (L : Int) (d : Value) :
    classifyGetRandom L d = (preGetRandom d).bind (fun v => pySliceTo v L) := by
  cases d <;> simp [classifyGetRandom, preGetRandom, pyGet, pyContains, Except.bind]
  case map entries =>
    cases hi : dictGet entries "GetRandom" <;> simp [pyGet, Except.bind]
    case map entriesI =>
      cases hk : dictHasKey entries "GetRandom" <;> simp [Except.bind]

/-- Claim C10: for any two valid lengths, `get_random` submits the same
NsmMessage (the encoded bare-tag request does not depend on the length);
the length only truncates the decoded result, and an omitted length
defaults to 32. -/
theorem get_random_request_independent_of_length (device : Device) (L₁ L₂ : Int)
    (h₁ : 1 ≤ L₁) (h₁' : L₁ ≤ 256) (h₂ : 1 ≤ L₂) (h₂' : L₂ ≤ 256) :
    getRandomSubmitted device L₁ = getRandomSubmitted device L₂
    ∧ (∃ r : Except PyError Value,
        get_random device L₁ = r.bind (fun v => pySliceTo v L₁)
        ∧ get_random device L₂ = r.bind (fun v => pySliceTo v L₂))
    ∧ get_random_default_call device = get_random device 32 := by
  have hnb₁ : ¬(L₁ < 1 ∨ L₁ > 256) := by omega
  have hnb₂ : ¬(L₂ < 1 ∨ L₂ > 256) := by omega
  refine ⟨by simp only [getRandomSubmitted, if_neg hnb₁, if_neg hnb₂], ?_, rfl⟩
  refine ⟨(transportRoundTrip device (cborDumps getRandomRequestValue)).result.bind
    preGetRandom, ?_, ?_⟩ <;>
  · cases hres : (transportRoundTrip device (cborDumps getRandomRequestValue)).result with
    | error e => simp [get_random, hnb₁, hnb₂, hres, Except.bind]
    | ok d => simp [get_random, hnb₁, hnb₂, hres, Except.bind, classifyGetRandom_eq_pre]

/-- Witness for C10 at lengths 1 and 256 on a concrete device. -/
theorem get_random_request_independent_of_length_witness :
    getRandomSubmitted randomDevice3 1 = getRandomSubmitted randomDevice3 256
    ∧ (∃ r : Except PyError Value,
        get_random randomDevice3 1 = r.bind (fun v => pySliceTo v 1)
        ∧ get_random randomDevice3 256 = r.bind (fun v => pySliceTo v 256))
    ∧ get_random_default_call randomDevice3 = get_random randomDevice3 32 :=
  get_random_request_independent_of_length randomDevice3 1 256
    (by norm_num) (by norm_num) (by norm_num) (by norm_num)

end AwsNsm
